import Mathlib

/-!
Verification of the azure-cost-exporter cost-record-to-metric mapping engine.

Shallow embedding of `app/exporter.py` (class `MetricExporter`): the label
model, the prometheus gauge registry semantics (`labels(**kw).set(v)` with its
exact-key-set check, `clear()`), the per-row `expose_metrics` mapping, the
per-account `fetch` loop with its date filter and error handling, and the
polling loop `run_metrics_loop`.

Numeric fields are modelled as rationals; row values are numbers or strings,
matching the JSON rows returned by the billing API.
-/

namespace ACE

/-- A value occurring in a billing row or as a label value: a JSON number or string. -/
inductive RVal where
  | num (q : ℚ)
  | str (s : String)
deriving DecidableEq

/-- A label assignment, as the keyword arguments of a `labels(...)` call. -/
abbrev LabelMap := List (String × RVal)

/-- One row of the billing query response (`result` in `expose_metrics`). -/
abbrev Row := List RVal

def keysOf (ls : LabelMap) : List String := ls.map Prod.fst

/-- Set-equality of two lists of label names (prometheus compares
`sorted(labelkwargs)` with `sorted(labelnames)`; both are duplicate-free). -/
def strSetEq (a b : List String) : Bool :=
  a.all (fun x => b.contains x) && b.all (fun x => a.contains x)

/-- Equality of two label assignments as finite maps (set equality of the
key/value pairs; keys are duplicate-free on both sides). -/
def labelMapEq (a b : LabelMap) : Bool :=
  a.all (fun kv => b.any (fun kv2 => decide (kv2 = kv))) &&
  b.all (fun kv => a.any (fun kv2 => decide (kv2 = kv)))

/-- A prometheus `Gauge`: the label names fixed at construction and the current
child samples, keyed by full label assignment. -/
structure Gauge where
  labelnames : List String
  samples : List (LabelMap × ℚ)
deriving DecidableEq

/-- The `labels(**kw)` key check: the supplied keyword names must be exactly
the construction-time label names (`sorted(labelkwargs) != sorted(self._labelnames)`
raises `ValueError('Incorrect label names')`). -/
def Gauge.validKeys (g : Gauge) (ls : LabelMap) : Bool :=
  decide (keysOf ls).Nodup && strSetEq (keysOf ls) g.labelnames

/-- `child.set(v)`: replace the value of an existing child with the same label
assignment, or create a new child. -/
def updateSamples : List (LabelMap × ℚ) → LabelMap → ℚ → List (LabelMap × ℚ)
  | [], ls, v => [(ls, v)]
  | (k, w) :: rest, ls, v =>
      if labelMapEq k ls then (k, v) :: rest else (k, w) :: updateSamples rest ls v

/-- `Gauge.clear()`: remove every child (all label/value pairs). -/
def Gauge.clear (g : Gauge) : Gauge := { g with samples := [] }

/-- `set(...)` on Python sets, as duplicate-free insertion. -/
def insertName (ns : List String) (n : String) : List String :=
  if ns.contains n then ns else ns ++ [n]

/-- One entry of `group_by["groups"]`. -/
structure GroupSpec where
  type : String
  name : String
  label_name : String
deriving DecidableEq

/-- `group_by["merge_minor_cost"]`. -/
structure MergeMinorCost where
  enabled : Bool
  threshold : ℚ
  tag_value : String
deriving DecidableEq

/-- The `group_by` configuration record. -/
structure GroupBy where
  enabled : Bool
  groups : List GroupSpec
  merge_minor_cost : MergeMinorCost
deriving DecidableEq

/-- `MetricExporter.__init__` lines 26-32: the fixed label-name set, derived
from the first target's keys plus `ChargeType`, `Currency`, plus one name per
group spec when grouping is enabled. -/
def mkLabelNames (gb : GroupBy) (target0keys : List String) : List String :=
  let base := target0keys.foldl insertName []
  let base := insertName (insertName base "ChargeType") "Currency"
  if gb.enabled then gb.groups.foldl (fun acc g => insertName acc g.label_name) base
  else base

/-- Registry identity: the billing-currency gauge or the USD gauge. -/
inductive Reg where
  | native
  | usd
deriving DecidableEq

/-- One `labels(**kw).set(v)` call site execution: which registry, the supplied
label assignment, the value, and whether the key check passed. -/
structure Obs where
  reg : Reg
  labels : LabelMap
  value : ℚ
  ok : Bool
deriving DecidableEq

/-- Errors the embedded code can raise. -/
inductive Err where
  | incorrectLabelNames
  | indexError
  | notANumber
deriving DecidableEq

/-- The mutable metric state: both gauges plus the trace of `labels().set()`
calls made so far. -/
structure ExpState where
  gNative : Gauge
  gUsd : Gauge
  calls : List Obs
deriving DecidableEq

/-- Construction of both gauges (`__init__` lines 33-34): empty, sharing the
fixed label-name set derived from the first target. -/
def initState (gb : GroupBy) (targets : List LabelMap) : ExpState :=
  let ns := mkLabelNames gb (keysOf (targets.headD []))
  ⟨⟨ns, []⟩, ⟨ns, []⟩, []⟩

def ExpState.gauge (s : ExpState) : Reg → Gauge
  | .native => s.gNative
  | .usd => s.gUsd

def ExpState.setGauge (s : ExpState) (r : Reg) (g : Gauge) : ExpState :=
  match r with
  | .native => { s with gNative := g }
  | .usd => { s with gUsd := g }

/-- Execute one `gauge.labels(**ls).set(v)`: record the call, then either
update the child (key check passed) or fail with `ValueError`. -/
def doSet (reg : Reg) (ls : LabelMap) (v : ℚ) (s : ExpState) : ExpState × Bool :=
  let g := s.gauge reg
  let ok := g.validKeys ls
  let s1 := { s with calls := s.calls ++ [⟨reg, ls, v, ok⟩] }
  if ok then (s1.setGauge reg { g with samples := updateSamples g.samples ls v }, true)
  else (s1, false)

/-- `float(result[i])` on a row field: index error when absent, conversion
error when not a number. -/
def getNum (r : Row) (i : ℕ) : Except Err ℚ :=
  match r[i]? with
  | none => .error .indexError
  | some (.num q) => .ok q
  | some (.str _) => .error .notANumber

/-- `result[i]` used as a label value. -/
def getVal (r : Row) (i : ℕ) : Except Err RVal :=
  match r[i]? with
  | none => .error .indexError
  | some v => .ok v

/-- Python `dict.update({k: v})` on an association list. -/
def dictUpdate : LabelMap → String → RVal → LabelMap
  | [], k, v => [(k, v)]
  | (k0, v0) :: rest, k, v =>
      if k0 = k then (k0, v) :: rest else (k0, v0) :: dictUpdate rest k v

/-- `expose_metrics` lines 93-96: `for i in range(len(groups)):
value = result[i + 3]; group_key_values.update({groups[i]["label_name"]: value})`. -/
def buildGroupKVs : List GroupSpec → Row → ℕ → LabelMap → Except Err LabelMap
  | [], _, _, acc => .ok acc
  | g :: rest, r, i, acc =>
      match getVal r (i + 3) with
      | .error e => .error e
      | .ok v => buildGroupKVs rest r (i + 1) (dictUpdate acc g.label_name v)

/-- `expose_metrics` lines 106-110: every group label bound to the merge
policy's `tag_value`. -/
def buildTagKVs (groups : List GroupSpec) (tag : String) : LabelMap :=
  groups.foldl (fun acc g => dictUpdate acc g.label_name (.str tag)) []

def chargeTypeKV : String × RVal := ("ChargeType", .str "ActualCost")

/-- `expose_metrics` lines 105-116: the minor-cost flush, executed after the
per-row branch with the row-local `merged_minor_cost` value (0 when the row was
not merged). The `labels(...)` call omits `Currency`. -/
def flushMinor (gb : GroupBy) (account : LabelMap) (merged mergedUsd : ℚ)
    (s : ExpState) : ExpState × Option Err :=
  if 0 < merged then
    let gkv := buildTagKVs gb.groups gb.merge_minor_cost.tag_value
    let (s, ok1) := doSet .native (account ++ gkv ++ [chargeTypeKV]) merged s
    if ok1 then
      let (s, ok2) := doSet .usd (account ++ gkv ++ [chargeTypeKV]) mergedUsd s
      if ok2 then (s, none) else (s, some .incorrectLabelNames)
    else (s, some .incorrectLabelNames)
  else (s, none)

/-- `MetricExporter.expose_metrics` (lines 83-116), called once per row. -/
def exposeMetrics (gb : GroupBy) (account : LabelMap) (result : Row)
    (s : ExpState) : ExpState × Option Err :=
  match getNum result 0 with
  | .error e => (s, some e)
  | .ok cost =>
  match getNum result 1 with
  | .error e => (s, some e)
  | .ok costUsd =>
  if gb.enabled then
    match buildGroupKVs gb.groups result 0 [] with
    | .error e => (s, some e)
    | .ok gkv =>
      if gb.merge_minor_cost.enabled && cost < gb.merge_minor_cost.threshold then
        flushMinor gb account cost costUsd s
      else
        match getVal result 3 with
        | .error e => (s, some e)
        | .ok cur =>
          let (s, ok1) := doSet .native
            (account ++ gkv ++ [chargeTypeKV, ("Currency", cur)]) cost s
          if ok1 then
            let (s, ok2) := doSet .usd
              (account ++ gkv ++ [chargeTypeKV, ("Currency", cur)]) costUsd s
            if ok2 then flushMinor gb account 0 0 s
            else (s, some .incorrectLabelNames)
          else (s, some .incorrectLabelNames)
  else
    match getVal result 3 with
    | .error e => (s, some e)
    | .ok cur =>
      let (s, ok1) := doSet .native
        (account ++ [chargeTypeKV, ("Currency", cur)]) cost s
      if ok1 then
        let (s, ok2) := doSet .usd
          (account ++ [chargeTypeKV, ("Currency", cur)]) costUsd s
        if ok2 then (s, none) else (s, some .incorrectLabelNames)
      else (s, some .incorrectLabelNames)

/-- Does a row's date field equal the `int(start_date.strftime("%Y%m%d"))`
value? (Python `==` across number representations is value equality; a string
date field is never equal to the integer.) -/
def rvalEqInt (v : RVal) (n : ℤ) : Bool :=
  match v with
  | .num q => decide (q = (n : ℚ))
  | .str _ => false

/-- `fetch` lines 133-140: the per-row loop with the start-date filter;
a row failing the filter is skipped, an accepted row goes through
`expose_metrics`, an uncaught error aborts the loop. -/
def processRows (gb : GroupBy) (account : LabelMap) (startInt : ℤ) :
    List Row → ExpState → ExpState × Option Err
  | [], s => (s, none)
  | r :: rest, s =>
      match r[2]? with
      | none => (s, some .indexError)
      | some v =>
          if rvalEqInt v startInt then
            match exposeMetrics gb account r s with
            | (s1, none) => processRows gb account startInt rest s1
            | (s1, some e) => (s1, some e)
          else processRows gb account startInt rest s

/-- A calendar date, as the (year, month, day) components of a `datetime`. -/
structure Date where
  year : ℕ
  month : ℕ
  day : ℕ
deriving DecidableEq

def isLeap (y : ℕ) : Bool :=
  (y % 4 == 0 && y % 100 != 0) || y % 400 == 0

def daysInMonth (y : ℕ) : ℕ → ℕ
  | 1 => 31
  | 2 => if isLeap y then 29 else 28
  | 3 => 31
  | 4 => 30
  | 5 => 31
  | 6 => 30
  | 7 => 31
  | 8 => 31
  | 9 => 30
  | 10 => 31
  | 11 => 30
  | 12 => 31
  | _ => 0

def Date.valid (d : Date) : Prop :=
  1 ≤ d.month ∧ d.month ≤ 12 ∧ 1 ≤ d.day ∧ d.day ≤ daysInMonth d.year d.month

instance (d : Date) : Decidable d.valid := by
  unfold Date.valid; infer_instance

/-- `end_date - relativedelta(days=1)` (`fetch` line 125): one calendar day
earlier, with month/year rollover. -/
def prevDay (d : Date) : Date :=
  if 1 < d.day then ⟨d.year, d.month, d.day - 1⟩
  else if 1 < d.month then ⟨d.year, d.month - 1, daysInMonth d.year (d.month - 1)⟩
  else ⟨d.year - 1, 12, 31⟩

/-- Days contributed by months `1..m` of year `y`. -/
def daysUpto (y : ℕ) : ℕ → ℕ
  | 0 => 0
  | m + 1 => daysUpto y m + daysInMonth y (m + 1)

/-- Days contributed by the proleptic-Gregorian years `1..y-1`. -/
def daysBeforeYear (y : ℕ) : ℤ :=
  365 * ((y : ℤ) - 1) + ((y - 1) / 4 : ℕ) - ((y - 1) / 100 : ℕ) + ((y - 1) / 400 : ℕ)

/-- The linear day number of a date: consecutive valid dates have consecutive
day numbers. -/
def dayNumber (d : Date) : ℤ :=
  daysBeforeYear d.year + (daysUpto d.year (d.month - 1) : ℤ) + (d.day : ℤ)

/-- `int(date.strftime("%Y%m%d"))` (`fetch` line 134). -/
def yyyymmdd (d : Date) : ℤ :=
  (d.year : ℤ) * 10000 + (d.month : ℤ) * 100 + (d.day : ℤ)

/-- A timezone-aware timestamp as built by
`datetime(year, month, day, tzinfo=timezone.utc)` (hour/minute/second default 0). -/
structure UtcDateTime where
  date : Date
  hour : ℕ
  minute : ℕ
  second : ℕ
  utc : Bool
deriving DecidableEq

def utcMidnight (d : Date) : UtcDateTime := ⟨d, 0, 0, 0, true⟩

/-- `QueryTimePeriod` construction in `query_azure_cost_explorer` lines 75-78:
both window endpoints truncated to day granularity at UTC midnight. -/
def queryTimePeriod (startDate endDate : Date) : UtcDateTime × UtcDateTime :=
  (utcMidnight startDate, utcMidnight endDate)

/-- The query window computed per account in `fetch` lines 124-128:
start = today minus one day, end = today, passed through `queryTimePeriod`. -/
def fetchWindow (today : Date) : UtcDateTime × UtcDateTime :=
  queryTimePeriod (prevDay today) today

/-- The result of one `fetch` call: final metric state, the error-log entries,
the windows passed to the billing query client (one per issued query), and the
uncaught error if a row aborted the loop. -/
structure FetchOut where
  state : ExpState
  logs : List String
  queried : List (UtcDateTime × UtcDateTime)
  err : Option Err
deriving DecidableEq

/-- `MetricExporter.fetch` (lines 118-140): iterate the configured accounts;
query each with the one-day window; on a caught query failure log the reason
and continue with the next account; on success run the row loop; an uncaught
row error propagates and aborts the remaining accounts. -/
def runFetch (q : LabelMap → Except String (List Row)) (gb : GroupBy)
    (today : Date) : List LabelMap → ExpState → FetchOut
  | [], s => ⟨s, [], [], none⟩
  | a :: rest, s =>
      let w := fetchWindow today
      match q a with
      | .error e =>
          let o := runFetch q gb today rest s
          ⟨o.state, e :: o.logs, w :: o.queried, o.err⟩
      | .ok rows =>
          match processRows gb a (yyyymmdd (prevDay today)) rows s with
          | (s1, none) =>
              let o := runFetch q gb today rest s1
              ⟨o.state, o.logs, w :: o.queried, o.err⟩
          | (s1, some e) => ⟨s1, [], [w], some e⟩

/-- `run_metrics_loop` lines 39-40: `clear()` on both gauges. -/
def clearRegistries (s : ExpState) : ExpState :=
  { s with gNative := s.gNative.clear, gUsd := s.gUsd.clear }

/-- One iteration of `run_metrics_loop` (lines 37-43): clear both registries,
then fetch. -/
def runTick (q : LabelMap → Except String (List Row)) (gb : GroupBy)
    (today : Date) (targets : List LabelMap) (s : ExpState) : FetchOut :=
  runFetch q gb today targets (clearRegistries s)

/-- The polling loop, one entry per tick; an uncaught error ends the process. -/
def runLoop (q : LabelMap → Except String (List Row)) (gb : GroupBy)
    (targets : List LabelMap) : List Date → ExpState → ExpState
  | [], s => s
  | t :: ts, s =>
      let o := runTick q gb t targets s
      match o.err with
      | some _ => o.state
      | none => runLoop q gb targets ts o.state

/-- Modelled from the spec (§3 Minor-Cost Accumulator, §4.1): the per-account
running sum, across all rows of one mapping pass, of the native-currency costs
of rows that the merge policy classifies as minor. The source keeps no such
per-pass state; this definition follows the spec's words for comparison. -/
def specMinorAccumulator (gb : GroupBy) (rows : List Row) : ℚ :=
  rows.foldl
    (fun acc r =>
      match getNum r 0 with
      | .ok c =>
          if gb.merge_minor_cost.enabled && c < gb.merge_minor_cost.threshold then acc + c
          else acc
      | .error _ => acc)
    0

/-! ## Concrete fixtures used by the claim theorems and witnesses -/

/-- Grouped policy, one group spec `ServiceName`, minor-cost merge enabled with
threshold 5 and placeholder `Other`. -/
def gbC : GroupBy := ⟨true, [⟨"Dimension", "ServiceName", "ServiceName"⟩], ⟨true, 5, "Other"⟩⟩

/-- Grouped policy, one group spec `ServiceName`, merge disabled. -/
def gb3 : GroupBy := ⟨true, [⟨"Dimension", "ServiceName", "ServiceName"⟩], ⟨false, 0, "Other"⟩⟩

/-- Ungrouped policy. -/
def gbU : GroupBy := ⟨false, [], ⟨false, 0, "Other"⟩⟩

def acctC : LabelMap := [("TenantId", .str "t1"), ("Subscription", .str "s1")]

def acctB : LabelMap := [("TenantId", .str "t2"), ("Subscription", .str "s2")]

def stC : ExpState := initState gbC [acctC]

def st3 : ExpState := initState gb3 [acctC]

def stU : ExpState := initState gbU [acctC]

def rowN : Row := [.num (-1), .num (-1), .num 20240115, .str "USD", .str "A"]

def rowP : Row := [.num 2, .num 2, .num 20240115, .str "USD", .str "B"]

def rowC2 : Row := [.num 1, .num 1, .num 20240115, .str "USD", .str "A"]

def rowC4 : Row := [.num 2, .num 2, .num 20240115, .str "USD", .str "C"]

def rowVM : Row := [.num 5, .num 5, .num 20240115, .str "USD", .str "VM"]

def rowSt : Row := [.num 3, .num 3, .num 20240115, .str "USD", .str "Storage"]

def rowU : Row := [.num (10.5 : ℚ), .num (11.0 : ℚ), .num 20240115, .str "USD"]

/-- A billing client that fails exactly on `acctC`. -/
def qF : LabelMap → Except String (List Row) :=
  fun a => if a = acctC then .error "boom" else .ok [rowU]

/-- A billing client that returns no rows. -/
def qEmpty : LabelMap → Except String (List Row) := fun _ => .ok []

/-! ## Claim theorems -/

/-- C5: a row whose date field differs from the start date of the requested
window is silently skipped: the row loop continues on the remaining rows with
the metric state unchanged and no error. -/
theorem date_mismatch_row_skipped (gb : GroupBy) (account : LabelMap)
    (startInt : ℤ) (r : Row) (rest : List Row) (s : ExpState) (d : RVal)
    (h2 : r[2]? = some d) (hne : rvalEqInt d startInt = false) :
    processRows gb account startInt (r :: rest) s =
      processRows gb account startInt rest s := by
  simp [processRows, h2, hne]

/-- Witness for C5 at a concrete input: a row dated 2024-01-16 against start
date 2024-01-15 produces nothing and no error. -/
theorem date_mismatch_row_skipped_witness :
    processRows gbU acctC 20240115 [[.num 1, .num 1, .num 20240116, .str "USD"]] stU
      = (stU, none) := by
  rw [date_mismatch_row_skipped gbU acctC 20240115 _ [] stU (.num 20240116) rfl (by decide)]
  rfl

/-- C10: with grouping and minor-cost merge enabled, a row whose cost is below
the merge threshold and not positive produces no observation at all in either
registry and no error: it is diverted from individual emission, and the flush
guard `merged_minor_cost > 0` then discards it. -/
theorem nonpositive_minor_row_emits_nothing (gb : GroupBy) (account : LabelMap)
    (r : Row) (s : ExpState) (cost costUsd : ℚ) (gkv : LabelMap)
    (hen : gb.enabled = true) (hm : gb.merge_minor_cost.enabled = true)
    (h0 : r[0]? = some (.num cost)) (h1 : r[1]? = some (.num costUsd))
    (hg : buildGroupKVs gb.groups r 0 [] = .ok gkv)
    (hlt : cost < gb.merge_minor_cost.threshold) (hle : cost ≤ 0) :
    exposeMetrics gb account r s = (s, none) := by
  simp only [exposeMetrics, getNum, h0, h1, hen, hg, hm, if_true]
  rw [if_pos (by simp [hlt])]
  simp [flushMinor, not_lt.mpr hle]

/-- Witness for C10: the minor row with cost −1 leaves the state untouched. -/
theorem nonpositive_minor_row_emits_nothing_witness :
    exposeMetrics gbC acctC rowN stC = (stC, none) := by
  exact nonpositive_minor_row_emits_nothing gbC acctC rowN stC (-1) (-1)
    [("ServiceName", .str "USD")] rfl rfl rfl rfl rfl
    (by show (-1 : ℚ) < (5 : ℚ); norm_num) (by norm_num)

/-- C8: every tick of the polling loop, including the first, clears both
registries entirely before any observation of that tick is written: a tick is
exactly a fetch started from registries with no samples, and the loop's
behavior does not depend on samples present before a tick. -/
theorem registries_cleared_before_each_tick
    (q : LabelMap → Except String (List Row)) (gb : GroupBy)
    (targets : List LabelMap) (today : Date) (ts : List Date) (s : ExpState) :
    runTick q gb today targets s = runFetch q gb today targets (clearRegistries s) ∧
    (clearRegistries s).gNative.samples = [] ∧
    (clearRegistries s).gUsd.samples = [] ∧
    runLoop q gb targets (today :: ts) s
      = runLoop q gb targets (today :: ts) (clearRegistries s) := by
  refine ⟨rfl, rfl, rfl, ?_⟩
  have hidem : clearRegistries (clearRegistries s) = clearRegistries s := by
    simp [clearRegistries, Gauge.clear]
  simp only [runLoop, runTick, hidem]

/-- C1: the minor-cost accumulator is not a per-pass running sum. On the
account pass with minor rows of cost −1 and 2 (threshold 5), a per-pass
accumulator reset once at the start of the pass would hold (−1) + 2 = 1 (the
spec-modelled value), but the code re-initializes `merged_minor_cost` to zero
for every row, so the only flush it attempts during the pass carries value 2,
and it happens mid-pass (during the second row), aborting with a label-key
error before any further row. -/
theorem minor_accumulator_reset_per_row :
    (processRows gbC acctC 20240115 [rowN, rowP] stC).2 = some Err.incorrectLabelNames ∧
    (processRows gbC acctC 20240115 [rowN, rowP] stC).1.calls.map Obs.value = [2] ∧
    specMinorAccumulator gbC [rowN, rowP] = 1 := by
  refine ⟨rfl, rfl, ?_⟩
  show (0 : ℚ) + (-1) + 2 = 1
  norm_num

/-- C2: the minor-cost flush is never emitted as a synthetic observation. On
the pass with the single minor row of cost 1 (threshold 5), the flush call
supplies the group placeholder and `ChargeType` but no `Currency` label to
gauges whose fixed label-name set includes `Currency`; the registry rejects
the call (incorrect label names), both registries stay empty, the USD flush
never runs, and the pass aborts with an error — there is no tick with one
synthetic observation per registry valued at the accumulated sum. -/
theorem minor_flush_rejected_by_registry :
    (processRows gbC acctC 20240115 [rowC2] stC).2 = some Err.incorrectLabelNames ∧
    (processRows gbC acctC 20240115 [rowC2] stC).1.calls
      = [⟨.native, acctC ++ [("ServiceName", .str "Other"), chargeTypeKV], 1, false⟩] ∧
    (processRows gbC acctC 20240115 [rowC2] stC).1.gNative.samples = [] ∧
    (processRows gbC acctC 20240115 [rowC2] stC).1.gUsd.samples = [] :=
  ⟨rfl, rfl, rfl, rfl⟩

/-- C3: with the row layout `[cost, costUsd, date, currency, ...groupValues]`
of the claim's scenario, the code reads the group value of group `i` at index
`i + 3` — the currency field for the first group — so both scenario rows are
labeled `ServiceName="USD"`, the second observation overwrites the first, and
each registry ends with a single sample of value 3 instead of two samples
(`VM`=5, `Storage`=3); no call ever carries `ServiceName="VM"`. -/
theorem group_value_reads_currency_field :
    (processRows gb3 acctC 20240115 [rowVM, rowSt] st3).2 = none ∧
    (processRows gb3 acctC 20240115 [rowVM, rowSt] st3).1.gNative.samples
      = [(acctC ++ [("ServiceName", .str "USD"), chargeTypeKV, ("Currency", .str "USD")], 3)] ∧
    (processRows gb3 acctC 20240115 [rowVM, rowSt] st3).1.gUsd.samples
      = [(acctC ++ [("ServiceName", .str "USD"), chargeTypeKV, ("Currency", .str "USD")], 3)] ∧
    ((processRows gb3 acctC 20240115 [rowVM, rowSt] st3).1.calls.all
      fun o => o.labels.contains ("ServiceName", RVal.str "USD")) = true ∧
    ((processRows gb3 acctC 20240115 [rowVM, rowSt] st3).1.calls.all
      fun o => !(o.labels.contains ("ServiceName", RVal.str "VM"))) = true :=
  ⟨rfl, rfl, rfl, rfl, rfl⟩

/-- C4: the synthetic minor-cost flush does not supply the construction-time
label key set: its key set (first target's keys, the group label, `ChargeType`)
lacks `Currency`, so it differs from the fixed label-name set, and the
resulting key-set error does occur — the flush call is recorded as rejected
and the mapping pass fails. -/
theorem flush_key_set_mismatch :
    strSetEq (keysOf (acctC ++ [("ServiceName", RVal.str "Other"), chargeTypeKV]))
      stC.gNative.labelnames = false ∧
    (processRows gbC acctC 20240115 [rowC4] stC).1.calls.map Obs.ok = [false] ∧
    (processRows gbC acctC 20240115 [rowC4] stC).2 = some Err.incorrectLabelNames :=
  ⟨rfl, rfl, rfl⟩

/-- C9: with grouping disabled, an accepted row produces exactly one
observation in each registry: labels = the account target's labels plus
`ChargeType=ActualCost` plus `Currency=` the row's fourth field, with value
`cost` in the native registry and `costUsd` in the USD registry, and no error. -/
theorem ungrouped_row_one_observation_per_registry
    (gb : GroupBy) (account : LabelMap) (r : Row) (s : ExpState)
    (cost costUsd : ℚ) (cur : RVal)
    (hgb : gb.enabled = false)
    (h0 : r[0]? = some (.num cost)) (h1 : r[1]? = some (.num costUsd))
    (h3 : r[3]? = some cur)
    (hk1 : s.gNative.validKeys (account ++ [chargeTypeKV, ("Currency", cur)]) = true)
    (hk2 : s.gUsd.validKeys (account ++ [chargeTypeKV, ("Currency", cur)]) = true) :
    exposeMetrics gb account r s =
      (⟨{ s.gNative with samples :=
            updateSamples s.gNative.samples (account ++ [chargeTypeKV, ("Currency", cur)]) cost },
        { s.gUsd with samples :=
            updateSamples s.gUsd.samples (account ++ [chargeTypeKV, ("Currency", cur)]) costUsd },
        s.calls ++ [⟨.native, account ++ [chargeTypeKV, ("Currency", cur)], cost, true⟩,
                    ⟨.usd, account ++ [chargeTypeKV, ("Currency", cur)], costUsd, true⟩]⟩,
       none) := by
  simp only [exposeMetrics, getNum, getVal, h0, h1, h3, hgb, Bool.false_eq_true, if_false,
    doSet, ExpState.gauge, ExpState.setGauge, hk1, hk2, if_true, List.append_assoc,
    List.singleton_append]

/-- Witness for C9, the spec scenario: the single accepted row
`[10.5, 11.0, 20240115, "USD"]` yields one observation per registry with
native value 10.5, USD value 11.0, `Currency=USD` and `ChargeType=ActualCost`. -/
theorem ungrouped_row_one_observation_per_registry_witness :
    exposeMetrics gbU acctC rowU stU =
      (⟨{ stU.gNative with samples := updateSamples stU.gNative.samples (acctC ++ [chargeTypeKV, ("Currency", .str "USD")]) (10.5 : ℚ) },
        { stU.gUsd with samples := updateSamples stU.gUsd.samples (acctC ++ [chargeTypeKV, ("Currency", .str "USD")]) (11.0 : ℚ) },
        stU.calls ++ [⟨.native, acctC ++ [chargeTypeKV, ("Currency", .str "USD")], (10.5 : ℚ), true⟩,
                      ⟨.usd, acctC ++ [chargeTypeKV, ("Currency", .str "USD")], (11.0 : ℚ), true⟩]⟩,
       none) := by
  exact ungrouped_row_one_observation_per_registry gbU acctC rowU stU
    (10.5 : ℚ) (11.0 : ℚ) (.str "USD") rfl rfl rfl rfl rfl rfl

/-- C7: a caught query failure on one account affects that account only: the
metric state and final error status of the tick are the same as if the failing
account were absent from the target list, and the failure reason is logged.
Accounts before and after the failing one are processed unchanged. -/
theorem query_failure_skips_account_only
    (q : LabelMap → Except String (List Row)) (gb : GroupBy) (today : Date)
    (xs ys : List LabelMap) (a : LabelMap) (e : String) (s : ExpState)
    (h : q a = .error e) :
    (runFetch q gb today (xs ++ a :: ys) s).state
      = (runFetch q gb today (xs ++ ys) s).state ∧
    (runFetch q gb today (xs ++ a :: ys) s).err
      = (runFetch q gb today (xs ++ ys) s).err ∧
    (runFetch q gb today (a :: ys) s).logs
      = e :: (runFetch q gb today ys s).logs := by
  have key : ∀ (xs : List LabelMap) (s : ExpState),
      (runFetch q gb today (xs ++ a :: ys) s).state
        = (runFetch q gb today (xs ++ ys) s).state ∧
      (runFetch q gb today (xs ++ a :: ys) s).err
        = (runFetch q gb today (xs ++ ys) s).err := by
    intro xs
    induction xs with
    | nil =>
        intro s
        simp [runFetch, h]
    | cons x xs ih =>
        intro s
        cases hqx : q x with
        | error e2 =>
            simp only [List.cons_append, runFetch, hqx]
            simpa using ih s
        | ok rows =>
            rcases hpr : processRows gb x (yyyymmdd (prevDay today)) rows s with ⟨s1, oe⟩
            cases oe with
            | none =>
                simp only [List.cons_append, runFetch, hqx, hpr]
                simpa using ih s1
            | some e2 =>
                simp [List.cons_append, runFetch, hqx, hpr]
  refine ⟨(key xs s).1, (key xs s).2, ?_⟩
  simp [runFetch, h]

/-- Witness for C7, at a concrete tick: with `qF` failing exactly on `acctC`,
processing `[acctB, acctC, acctB]` produces the same metric state and error
status as processing `[acctB, acctB]`, and the failure reason `"boom"` is
logged. -/
theorem query_failure_skips_account_only_witness :
    (runFetch qF gbU ⟨2024, 1, 16⟩ ([acctB] ++ acctC :: [acctB]) stU).state
      = (runFetch qF gbU ⟨2024, 1, 16⟩ ([acctB] ++ [acctB]) stU).state ∧
    (runFetch qF gbU ⟨2024, 1, 16⟩ ([acctB] ++ acctC :: [acctB]) stU).err
      = (runFetch qF gbU ⟨2024, 1, 16⟩ ([acctB] ++ [acctB]) stU).err ∧
    (runFetch qF gbU ⟨2024, 1, 16⟩ (acctC :: [acctB]) stU).logs
      = "boom" :: (runFetch qF gbU ⟨2024, 1, 16⟩ [acctB] stU).logs :=
  query_failure_skips_account_only qF gbU ⟨2024, 1, 16⟩ [acctB] [acctB] acctC
    "boom" stU rfl

lemma div_step (y k : ℕ) (hy : 1 ≤ y) :
    y / k = (y - 1) / k + (if k ∣ y then 1 else 0) := by
  obtain ⟨n, rfl⟩ : ∃ n, y = n + 1 := ⟨y - 1, by omega⟩
  simp [Nat.succ_div]

lemma div_step_int (y k : ℕ) (hy : 1 ≤ y) :
    ((y / k : ℕ) : ℤ) = ((y - 1) / k : ℕ) + (if k ∣ y then (1 : ℤ) else 0) := by
  rw [div_step y k hy]
  by_cases h : k ∣ y <;> simp [h]

lemma isLeap_iff (y : ℕ) : isLeap y = true ↔ (4 ∣ y ∧ ¬(100 ∣ y)) ∨ 400 ∣ y := by
  simp [isLeap, Nat.dvd_iff_mod_eq_zero]

lemma daysBeforeYear_succ (y : ℕ) (hy : 1 ≤ y) :
    daysBeforeYear (y + 1) = daysBeforeYear y + 365 + (if isLeap y then 1 else 0) := by
  have hd1 : (100 : ℕ) ∣ y → 4 ∣ y := fun h => dvd_trans (by norm_num) h
  have hd2 : (400 : ℕ) ∣ y → 100 ∣ y := fun h => dvd_trans (by norm_num) h
  have hleap : (if isLeap y then (1 : ℤ) else 0) =
      (if 4 ∣ y then 1 else 0) - (if 100 ∣ y then 1 else 0) + (if 400 ∣ y then 1 else 0) := by
    by_cases c4 : 4 ∣ y <;> by_cases c100 : 100 ∣ y <;> by_cases c400 : 400 ∣ y
    all_goals try exact absurd (hd1 c100) c4
    all_goals try exact absurd (hd2 c400) c100
    all_goals simp [isLeap_iff, c4, c100, c400]
  unfold daysBeforeYear
  rw [Nat.add_sub_cancel, div_step_int y 4 hy, div_step_int y 100 hy,
    div_step_int y 400 hy, hleap]
  push_cast
  ring

lemma daysUpto_twelve (y : ℕ) :
    (daysUpto y 12 : ℤ) = 365 + (if isLeap y then 1 else 0) := by
  have h : daysUpto y 12 =
      0 + 31 + daysInMonth y 2 + 31 + 30 + 31 + 30 + 31 + 31 + 30 + 31 + 30 + 31 := rfl
  have h2 : daysInMonth y 2 = if isLeap y then 29 else 28 := rfl
  rw [h, h2]
  cases isLeap y <;> norm_num

lemma dayNumber_prevDay (d : Date) (hv : d.valid) (hy : 2 ≤ d.year) :
    dayNumber (prevDay d) = dayNumber d - 1 := by
  obtain ⟨hm1, hm2, hd1, hd2⟩ := hv
  unfold prevDay
  by_cases hday : 1 < d.day
  · rw [if_pos hday]
    unfold dayNumber
    simp only
    rw [Nat.cast_sub (by omega : 1 ≤ d.day)]
    push_cast
    ring
  · rw [if_neg hday]
    have hd : d.day = 1 := by omega
    by_cases hmon : 1 < d.month
    · rw [if_pos hmon]
      obtain ⟨k, hk⟩ : ∃ k, d.month = k + 2 := ⟨d.month - 2, by omega⟩
      unfold dayNumber
      simp only [hk, hd]
      have e1 : (k + 2) - 1 = k + 1 := by omega
      have e2 : (k + 1) - 1 = k := by omega
      rw [e1, e2]
      have e3 : daysUpto d.year (k + 1) = daysUpto d.year k + daysInMonth d.year (k + 1) := rfl
      rw [e3]
      push_cast
      ring
    · rw [if_neg hmon]
      have hm : d.month = 1 := by omega
      unfold dayNumber
      simp only [hm, hd]
      have h11 : (12 : ℕ) - 1 = 11 := rfl
      have h0 : daysUpto d.year (1 - 1) = 0 := rfl
      have hstep := daysBeforeYear_succ (d.year - 1) (by omega : 1 ≤ d.year - 1)
      rw [show (d.year - 1) + 1 = d.year from by omega] at hstep
      have h2 := daysUpto_twelve (d.year - 1)
      have h3 : daysUpto (d.year - 1) 12 = daysUpto (d.year - 1) 11 + 31 := rfl
      rw [h3] at h2
      rw [h11, h0]
      push_cast at h2 ⊢
      linarith [hstep, h2]

lemma runFetch_queried_windows (q : LabelMap → Except String (List Row))
    (gb : GroupBy) (today : Date) :
    ∀ (targets : List LabelMap) (s : ExpState),
      ∀ w ∈ (runFetch q gb today targets s).queried, w = fetchWindow today := by
  intro targets
  induction targets with
  | nil =>
      intro s w hw
      simp [runFetch] at hw
  | cons a rest ih =>
      intro s w hw
      cases hqa : q a with
      | error e =>
          rw [runFetch, hqa] at hw
          simp only [List.mem_cons] at hw
          rcases hw with rfl | hw
          · rfl
          · exact ih s w hw
      | ok rows =>
          rw [runFetch] at hw
          simp only [hqa] at hw
          rcases hpr : processRows gb a (yyyymmdd (prevDay today)) rows s with ⟨s1, oe⟩
          simp only [hpr] at hw
          cases oe with
          | none =>
              simp only [List.mem_cons] at hw
              rcases hw with rfl | hw
              · rfl
              · exact ih s1 w hw
          | some e =>
              simp only [List.mem_singleton] at hw
              exact hw

/-- C6: every window the fetch cycle passes to the billing query client is
(start = today minus one calendar day, end = today), both truncated to
calendar-day granularity at UTC midnight; "minus one day" is genuine day
arithmetic: the linear day number of the start date is exactly one less than
today's. -/
theorem query_window_previous_day_to_today
    (q : LabelMap → Except String (List Row)) (gb : GroupBy)
    (targets : List LabelMap) (s : ExpState) (today : Date)
    (hv : today.valid) (hy : 2 ≤ today.year) :
    (∀ w ∈ (runFetch q gb today targets s).queried,
      w = (utcMidnight (prevDay today), utcMidnight today)) ∧
    dayNumber (prevDay today) = dayNumber today - 1 := by
  exact ⟨fun w hw => runFetch_queried_windows q gb today targets s w hw,
    dayNumber_prevDay today hv hy⟩

/-- Witness for C6 at the concrete tick date 2024-01-16: the query window is
2024-01-15T00:00Z to 2024-01-16T00:00Z and the start day number is one less. -/
theorem query_window_previous_day_to_today_witness :
    (∀ w ∈ (runFetch qEmpty gbU ⟨2024, 1, 16⟩ [acctC] stU).queried,
      w = (utcMidnight (prevDay ⟨2024, 1, 16⟩), utcMidnight ⟨2024, 1, 16⟩)) ∧
    dayNumber (prevDay ⟨2024, 1, 16⟩) = dayNumber ⟨2024, 1, 16⟩ - 1 :=
  query_window_previous_day_to_today qEmpty gbU [acctC] stU ⟨2024, 1, 16⟩
    (by decide) (by norm_num)

end ACE
